import Mathlib

/-
Verification of the load-balancing and worker-state-tracking subsystem of the
ocr_matematico repository (balancer.py, worker.py), via a shallow embedding of
the Python source into Lean.

Conventions of the embedding:
  * Python dicts carrying JSON bodies become association lists `Dict`
    (`List (String × PyVal)`), with Python's in-place key assignment `d[k] = v`
    embedded as `dictSet` (replace in place when the key exists, append
    otherwise).
  * The mutable dictionaries `LoadBalancer.worker_status` and
    `stats["requests_per_worker"]` become total functions from worker id.
  * Wall-clock values (`time.time()`, the rounded elapsed time) are abstract
    naturals supplied by the environment; nothing proved depends on them.
  * Network effects (`requests.get` / `requests.post`) become explicit outcome
    values supplied by the caller, one constructor per behaviour the Python
    code distinguishes (response with a given status code and JSON-or-not
    body, timeout exception, other exception).
-/

namespace OcrCluster

/-- One entry of the fixed pool `WORKERS` in balancer.py: endpoint URL and id,
immutable for the process lifetime. -/
structure Worker where
  url : String
  id : String
deriving DecidableEq

/-- One value of `LoadBalancer.worker_status[id]`: the per-worker mutable state.
The Python value is a dict; `requests_processed` is absent from the initial
dict and first appears after a successful probe, so here it is a field that
simply starts at 0. -/
structure WStatus where
  healthy : Bool
  busy : Bool
  last_check : Nat
  requests_processed : Nat
deriving DecidableEq

/-- `LoadBalancer.stats`: the cluster-wide counters. -/
structure Stats where
  total_requests : Nat
  successful_requests : Nat
  failed_requests : Nat
  requests_per_worker : String → Nat

/-- The mutable state of the `LoadBalancer` instance that the claims are
about: the fixed pool, the per-worker status table and the counters. -/
structure BalancerState where
  workers : List Worker
  worker_status : String → WStatus
  stats : Stats

/-- Python's `min(xs, key=f)` on a nonempty list `x :: xs`: left fold that
replaces the current best only on a strictly smaller key, hence returns the
first element attaining the minimum key. -/
def pyMin (f : α → Nat) (x : α) (xs : List α) : α :=
  xs.foldl (fun acc y => if f y < f acc then y else acc) x

/-- The filter predicate of the first loop of `get_best_worker`:
`status["healthy"] and not status["busy"]`. -/
def idleHealthy (status : String → WStatus) (w : Worker) : Bool :=
  (status w.id).healthy && !(status w.id).busy

/-- `LoadBalancer.get_best_worker` (balancer.py lines 75-93): among
healthy-and-not-busy workers pick the one with the fewest routed requests
(Python `min`, first on ties); failing that, among all healthy workers; failing
that, `None`. -/
def get_best_worker (workers : List Worker) (status : String → WStatus)
    (rpw : String → Nat) : Option Worker :=
  match workers.filter (idleHealthy status) with
  | a :: rest => some (pyMin (fun w => rpw w.id) a rest)
  | [] =>
    match workers.filter (fun w => (status w.id).healthy) with
    | a :: rest => some (pyMin (fun w => rpw w.id) a rest)
    | [] => none

theorem pyMin_cons (f : α → Nat) (x y : α) (ys : List α) :
    pyMin f x (y :: ys) = pyMin f (if f y < f x then y else x) ys := rfl

/-- `pyMin f x xs` is an element of `x :: xs`, attains the minimum key, and
every element strictly before it in the list has a strictly larger key (so it
is the first element attaining the minimum). -/
theorem pyMin_spec (f : α → Nat) :
    ∀ (xs : List α) (x : α),
      ∃ l₁ l₂, x :: xs = l₁ ++ pyMin f x xs :: l₂ ∧
        (∀ y ∈ x :: xs, f (pyMin f x xs) ≤ f y) ∧
        (∀ y ∈ l₁, f (pyMin f x xs) < f y) := by
  intro xs
  induction xs with
  | nil =>
    intro x
    refine ⟨[], [], rfl, ?_, by simp⟩
    intro y hy
    simp only [List.mem_singleton] at hy
    subst hy
    exact Nat.le_refl _
  | cons y ys ih =>
    intro x
    by_cases h : f y < f x
    · have e : pyMin f x (y :: ys) = pyMin f y ys := by
        rw [pyMin_cons, if_pos h]
      obtain ⟨l₁, l₂, hdec, hmin, hlt⟩ := ih y
      refine ⟨x :: l₁, l₂, ?_, ?_, ?_⟩
      · rw [e, List.cons_append, ← hdec]
      · intro z hz
        rw [e]
        rcases List.mem_cons.mp hz with rfl | hz₂
        · exact Nat.le_of_lt
            (Nat.lt_of_le_of_lt (hmin y (List.mem_cons_self y ys)) h)
        · exact hmin z hz₂
      · intro z hz
        rw [e]
        rcases List.mem_cons.mp hz with rfl | hz₂
        · exact Nat.lt_of_le_of_lt (hmin y (List.mem_cons_self y ys)) h
        · exact hlt z hz₂
    · have e : pyMin f x (y :: ys) = pyMin f x ys := by
        rw [pyMin_cons, if_neg h]
      have hxy : f x ≤ f y := Nat.le_of_not_lt h
      obtain ⟨l₁, l₂, hdec, hmin, hlt⟩ := ih x
      cases l₁ with
      | nil =>
        simp only [List.nil_append, List.cons.injEq] at hdec
        obtain ⟨hm, _⟩ := hdec
        refine ⟨[], y :: ys, ?_, ?_, by simp⟩
        · rw [e, ← hm, List.nil_append]
        · intro z hz
          rw [e, ← hm]
          rcases List.mem_cons.mp hz with rfl | hz₂
          · exact Nat.le_refl _
          · rcases List.mem_cons.mp hz₂ with rfl | hz₃
            · exact hxy
            · have := hmin z (List.mem_cons_of_mem x hz₃)
              rw [← hm] at this
              exact this
      | cons a l₁' =>
        rw [List.cons_append, List.cons.injEq] at hdec
        obtain ⟨ha, hys⟩ := hdec
        have hax : f (pyMin f x ys) < f x := by
          have := hlt a (List.mem_cons_self a l₁')
          rw [← ha] at this
          exact this
        refine ⟨x :: y :: l₁', l₂, ?_, ?_, ?_⟩
        · rw [e]
          conv_lhs => rw [hys]
          simp
        · intro z hz
          rw [e]
          rcases List.mem_cons.mp hz with rfl | hz₂
          · exact Nat.le_of_lt hax
          · rcases List.mem_cons.mp hz₂ with rfl | hz₃
            · exact Nat.le_of_lt (Nat.lt_of_lt_of_le hax hxy)
            · exact hmin z (List.mem_cons_of_mem x hz₃)
        · intro z hz
          rw [e]
          rcases List.mem_cons.mp hz with rfl | hz₂
          · exact hax
          · rcases List.mem_cons.mp hz₂ with rfl | hz₃
            · exact Nat.lt_of_lt_of_le hax hxy
            · exact hlt z (List.mem_cons_of_mem a hz₃)

/-- Shared helper: when no worker is healthy, `get_best_worker` returns
`none`. -/
theorem get_best_worker_none (workers : List Worker) (status : String → WStatus)
    (rpw : String → Nat)
    (h : ∀ w ∈ workers, (status w.id).healthy = false) :
    get_best_worker workers status rpw = none := by
  have h₁ : workers.filter (idleHealthy status) = [] := by
    rw [List.filter_eq_nil_iff]
    intro w hw
    simp only [idleHealthy, h w hw, Bool.false_and, Bool.false_eq_true,
      not_false_eq_true]
  have h₂ : workers.filter (fun w => (status w.id).healthy) = [] := by
    rw [List.filter_eq_nil_iff]
    intro w hw
    simp [h w hw]
  unfold get_best_worker
  rw [h₁, h₂]

/-- C1: if some worker is healthy and not busy, `get_best_worker` returns an
idle-healthy worker whose `requests_per_worker` count is minimal among all
idle-healthy workers, and which precedes (in the fixed pool order) every other
idle-healthy worker of strictly larger count — hence it is the first
idle-healthy worker attaining the minimum count. -/
theorem get_best_worker_idle (workers : List Worker) (status : String → WStatus)
    (rpw : String → Nat)
    (h : ∃ w ∈ workers, idleHealthy status w = true) :
    ∃ m l₁ l₂,
      get_best_worker workers status rpw = some m ∧
      workers.filter (idleHealthy status) = l₁ ++ m :: l₂ ∧
      (∀ v ∈ workers, idleHealthy status v = true → rpw m.id ≤ rpw v.id) ∧
      (∀ v ∈ l₁, rpw m.id < rpw v.id) := by
  obtain ⟨w, hw, hwp⟩ := h
  have hmem : w ∈ workers.filter (idleHealthy status) :=
    List.mem_filter.mpr ⟨hw, hwp⟩
  cases hfil : workers.filter (idleHealthy status) with
  | nil => rw [hfil] at hmem; exact absurd hmem (List.not_mem_nil w)
  | cons a rest =>
    obtain ⟨l₁, l₂, hdec, hmin, hlt⟩ := pyMin_spec (fun v => rpw v.id) rest a
    refine ⟨pyMin (fun v => rpw v.id) a rest, l₁, l₂, ?_, ?_, ?_, hlt⟩
    · unfold get_best_worker
      rw [hfil]
    · exact hdec
    · intro v hv hvp
      have : v ∈ a :: rest := by
        rw [← hfil]
        exact List.mem_filter.mpr ⟨hv, hvp⟩
      exact hmin v this

/-- C2: when no worker is idle-healthy, `get_best_worker` degrades to busy
workers: if some worker is healthy it returns a healthy worker of minimal
`requests_per_worker` count among all healthy workers, and if no worker is
healthy it returns `none`. -/
theorem get_best_worker_degraded (workers : List Worker)
    (status : String → WStatus) (rpw : String → Nat)
    (hno : ∀ w ∈ workers, ¬ idleHealthy status w = true) :
    ((∃ w ∈ workers, (status w.id).healthy = true) →
      ∃ m, get_best_worker workers status rpw = some m ∧ m ∈ workers ∧
        (status m.id).healthy = true ∧
        ∀ v ∈ workers, (status v.id).healthy = true → rpw m.id ≤ rpw v.id) ∧
    ((∀ w ∈ workers, (status w.id).healthy = false) →
      get_best_worker workers status rpw = none) := by
  have h₁ : workers.filter (idleHealthy status) = [] :=
    List.filter_eq_nil_iff.mpr hno
  constructor
  · rintro ⟨w, hw, hwp⟩
    have hmem : w ∈ workers.filter (fun v => (status v.id).healthy) :=
      List.mem_filter.mpr ⟨hw, hwp⟩
    cases hfil : workers.filter (fun v => (status v.id).healthy) with
    | nil => rw [hfil] at hmem; exact absurd hmem (List.not_mem_nil w)
    | cons a rest =>
      obtain ⟨l₁, l₂, hdec, hmin, _⟩ := pyMin_spec (fun v => rpw v.id) rest a
      have hcons : pyMin (fun v => rpw v.id) a rest ∈ a :: rest := by
        rw [hdec]
        exact List.mem_append_right l₁ (List.mem_cons_self _ _)
      have hmw : pyMin (fun v => rpw v.id) a rest ∈
          workers.filter (fun v => (status v.id).healthy) := by
        rw [hfil]; exact hcons
      refine ⟨pyMin (fun v => rpw v.id) a rest, ?_, ?_, ?_, ?_⟩
      · unfold get_best_worker
        rw [h₁, hfil]
      · exact (List.mem_filter.mp hmw).1
      · have := (List.mem_filter.mp hmw).2
        simpa using this
      · intro v hv hvp
        have : v ∈ a :: rest := by
          rw [← hfil]
          exact List.mem_filter.mpr ⟨hv, hvp⟩
        exact hmin v this
  · exact get_best_worker_none workers status rpw

/-- Concrete three-worker pool used to instantiate the scheduler theorems:
the worked example of the spec (A idle-healthy with count 3, B idle-healthy
with count 1, C unhealthy). -/
def poolABC : List Worker :=
  [⟨"http://localhost:5556", "worker-1"⟩,
   ⟨"http://localhost:5557", "worker-2"⟩,
   ⟨"http://localhost:5558", "worker-3"⟩]

/-- Status table for the C1 example: workers 1 and 2 idle-healthy, worker 3
unhealthy. -/
def statusABC : String → WStatus := fun i =>
  if i = "worker-3" then ⟨false, false, 0, 0⟩ else ⟨true, false, 0, 0⟩

/-- Counters for the C1 example: A has routed 3 requests, B one, C none. -/
def rpwABC : String → Nat := fun i =>
  if i = "worker-1" then 3 else if i = "worker-2" then 1 else 0

theorem get_best_worker_idle_witness :
    ∃ m l₁ l₂,
      get_best_worker poolABC statusABC rpwABC = some m ∧
      poolABC.filter (idleHealthy statusABC) = l₁ ++ m :: l₂ ∧
      (∀ v ∈ poolABC, idleHealthy statusABC v = true →
        rpwABC m.id ≤ rpwABC v.id) ∧
      (∀ v ∈ l₁, rpwABC m.id < rpwABC v.id) :=
  get_best_worker_idle poolABC statusABC rpwABC
    ⟨⟨"http://localhost:5556", "worker-1"⟩, by decide, by decide⟩

/-- Status table for the C2 example: both remaining workers healthy but
busy. -/
def statusBusy : String → WStatus := fun i =>
  if i = "worker-3" then ⟨false, false, 0, 0⟩ else ⟨true, true, 0, 0⟩

theorem get_best_worker_degraded_witness :
    (∀ w ∈ poolABC, ¬ idleHealthy statusBusy w = true) ∧
    ((∃ w ∈ poolABC, (statusBusy w.id).healthy = true) →
      ∃ m, get_best_worker poolABC statusBusy rpwABC = some m ∧ m ∈ poolABC ∧
        (statusBusy m.id).healthy = true ∧
        ∀ v ∈ poolABC, (statusBusy v.id).healthy = true →
          rpwABC m.id ≤ rpwABC v.id) :=
  ⟨by decide,
   (get_best_worker_degraded poolABC statusBusy rpwABC (by decide)).1⟩

/-! Health poller (`LoadBalancer._check_all_workers`, balancer.py lines
56-73). -/

/-- Outcome of one `requests.get(url + "/status", timeout=3)` probe, as the
Python code distinguishes it:
  * `success`: a 200 response whose JSON body yielded `ready`, `busy` and
    `requests_processed`;
  * `httpError`: a response with a status code other than 200;
  * `failure`: the call raised (connection error, timeout, or a 200 response
    whose body failed to parse as JSON). -/
inductive ProbeOutcome where
  | success (ready : Bool) (busy : Bool) (requestsProcessed : Nat)
  | httpError
  | failure
deriving DecidableEq

/-- Loop body of `_check_all_workers` for one worker: on a 200 JSON response
the whole status dict is replaced; on a non-200 response only `healthy` is
assigned `False`; on an exception `healthy` and `busy` are assigned
`False`. -/
def probeUpdate (old : WStatus) (out : ProbeOutcome) (now : Nat) : WStatus :=
  match out with
  | .success ready busy rp => ⟨ready, busy, now, rp⟩
  | .httpError => { old with healthy := false }
  | .failure => { old with healthy := false, busy := false }

/-- `LoadBalancer._check_all_workers`: fold of `probeUpdate` over the fixed
pool, each worker probed independently. -/
def check_all_workers (workers : List Worker) (status : String → WStatus)
    (probe : Worker → ProbeOutcome) (now : Nat) : String → WStatus :=
  workers.foldl
    (fun st w => fun i =>
      if i = w.id then probeUpdate (st w.id) (probe w) now else st i)
    status

/-- C3 (amended): a probe that raises (network error or timeout) sets both
`healthy` and `busy` to false, while a probe answered with a non-200 HTTP
status only sets `healthy` to false and leaves `busy` unchanged. -/
theorem probeUpdate_failure_flags (old : WStatus) (now : Nat) :
    (probeUpdate old .failure now).healthy = false ∧
    (probeUpdate old .failure now).busy = false ∧
    (probeUpdate old .httpError now).healthy = false ∧
    (probeUpdate old .httpError now).busy = old.busy := by
  simp [probeUpdate]

/-- C3 counterexample: a worker recorded busy by a successful probe, then
probed again and answered with a non-200 status, keeps `busy = true` in the
poller's table, contradicting the claim that every failed probe clears the
busy flag. -/
theorem check_all_workers_http_error_keeps_busy :
    (check_all_workers [⟨"http://localhost:5556", "worker-1"⟩]
        (fun _ => ⟨true, true, 0, 7⟩) (fun _ => .httpError) 5) "worker-1" =
      ⟨false, true, 0, 7⟩ ∧
    ¬ ((check_all_workers [⟨"http://localhost:5556", "worker-1"⟩]
        (fun _ => ⟨true, true, 0, 7⟩) (fun _ => .httpError) 5) "worker-1").busy
        = false := by
  constructor
  · rfl
  · decide

/-! JSON bodies.  The dict values that the balancer builds or passes through
are flat string-keyed dicts of scalars, embedded as association lists. -/

/-- A scalar JSON value appearing in the request/response bodies. -/
inductive PyVal where
  | vbool (b : Bool)
  | vstr (s : String)
  | vnat (n : Nat)
deriving DecidableEq

/-- A Python dict carrying a JSON body: ordered association list. -/
abbrev Dict := List (String × PyVal)

/-- Python `d[k] = v`: replace in place when the key is present, append
otherwise. -/
def dictSet : Dict → String → PyVal → Dict
  | [], k, v => [(k, v)]
  | (k', v') :: rest, k, v =>
    if k' = k then (k, v) :: rest else (k', v') :: dictSet rest k v

/-- Python `d.get(k)` / `d[k]`: first binding of the key. -/
def dictGet : Dict → String → Option PyVal
  | [], _ => none
  | (k', v') :: rest, k => if k' = k then some v' else dictGet rest k

/-- Python `k in d`. -/
def dictHasKey (d : Dict) (k : String) : Bool :=
  (dictGet d k).isSome

theorem dictGet_dictSet_self (d : Dict) (k : String) (v : PyVal) :
    dictGet (dictSet d k v) k = some v := by
  induction d with
  | nil => simp [dictSet, dictGet]
  | cons p rest ih =>
    by_cases h : p.1 = k
    · simp [dictSet, dictGet, h]
    · simp [dictSet, dictGet, h, ih]

theorem dictGet_dictSet_ne (d : Dict) (k k' : String) (v : PyVal)
    (h : k' ≠ k) : dictGet (dictSet d k v) k' = dictGet d k' := by
  induction d with
  | nil => simp [dictSet, dictGet, Ne.symm h]
  | cons p rest ih =>
    by_cases hp : p.1 = k
    · simp [dictSet, dictGet, hp, Ne.symm h, h]
    · by_cases hp' : p.1 = k'
      · simp [dictSet, dictGet, hp, hp', h]
      · simp [dictSet, dictGet, hp, hp', ih]

/-! Forwarder (`LoadBalancer.forward_request`, balancer.py lines 95-138). -/

/-- Outcome of the `requests.post(url + "/predict", ...)` call:
  * `reply code body`: an HTTP response arrived; `body` is its JSON payload,
    or `none` when `resp.json()` raises (body not valid JSON);
  * `timeout`: the call raised `requests.Timeout` (deadline exceeded);
  * `failed msg`: the call raised any other exception with message `msg`. -/
inductive PostResult where
  | reply (statusCode : Nat) (body : Option Dict)
  | timeout
  | failed (msg : String)
deriving DecidableEq

/-- `LoadBalancer._check_worker` (balancer.py lines 140-153), the post-job
re-probe: `some (ready, busy, n)` stands for a 200 response with a JSON body,
which replaces the worker's status dict; `none` stands for any other status
code or an exception, both of which leave the table unchanged. -/
def check_worker (status : String → WStatus) (w : Worker)
    (out : Option (Bool × Bool × Nat)) (now : Nat) : String → WStatus :=
  match out with
  | some (r, b, n) => fun i => if i = w.id then ⟨r, b, now, n⟩ else status i
  | none => status

/-- Environment of one `forward_request` call: the network outcomes and clock
readings it observes.  `jsonErrMsg` is the `str(e)` of the exception raised by
`resp.json()` when the reply body is not valid JSON. -/
structure ForwardEnv where
  post : Worker → PostResult
  elapsed : Nat
  jsonErrMsg : String
  recheck : Worker → Option (Bool × Bool × Nat)
  now : Nat

/-- `LoadBalancer.forward_request` (balancer.py lines 95-138).  Returns the
`(body, statusCode)` pair the route handler will serialize, together with the
successor balancer state.  Path by path, following the source:
  * no worker: `total_requests` and `failed_requests` bump, 503;
  * a worker is chosen: its `busy` flag is set, then the POST outcome is
    interpreted; whatever the outcome, `_check_worker` runs last (the
    `finally` block);
  * 200 reply with JSON body: `successful_requests` and that worker's
    `requests_per_worker` bump, `routed_to` and `balancer_time` are attached;
  * 200 reply with a non-JSON body: `successful_requests` and
    `requests_per_worker` have already been bumped when `resp.json()` raises,
    so the generic handler additionally bumps `failed_requests` and answers
    500;
  * non-200 reply with JSON body: `failed_requests` bumps, the body and status
    are passed through;
  * non-200 reply with a non-JSON body: `failed_requests` bumps, then
    `resp.json()` raises in the return expression and the generic handler
    bumps `failed_requests` a second time and answers 500;
  * timeout: `failed_requests` bumps, 504 naming the worker;
  * other exception: `failed_requests` bumps, 500 with the message. -/
def forward_request (st : BalancerState) (env : ForwardEnv) :
    (Dict × Nat) × BalancerState :=
  let stats1 := { st.stats with total_requests := st.stats.total_requests + 1 }
  match get_best_worker st.workers st.worker_status
      st.stats.requests_per_worker with
  | none =>
    (([("ok", .vbool false), ("error", .vstr "No hay workers disponibles")],
        503),
     { st with stats :=
        { stats1 with failed_requests := stats1.failed_requests + 1 } })
  | some w =>
    let status1 : String → WStatus := fun i =>
      if i = w.id then { st.worker_status w.id with busy := true }
      else st.worker_status i
    let statusOut := check_worker status1 w (env.recheck w) env.now
    match env.post w with
    | .reply code mbody =>
      if code = 200 then
        let stats2 := { stats1 with
          successful_requests := stats1.successful_requests + 1,
          requests_per_worker := fun i =>
            if i = w.id then stats1.requests_per_worker i + 1
            else stats1.requests_per_worker i }
        match mbody with
        | some body =>
          ((dictSet (dictSet body "routed_to" (.vstr w.id)) "balancer_time"
              (.vnat env.elapsed), 200),
           { st with stats := stats2, worker_status := statusOut })
        | none =>
          let stats3 :=
            { stats2 with failed_requests := stats2.failed_requests + 1 }
          (([("ok", .vbool false), ("error", .vstr env.jsonErrMsg)], 500),
           { st with stats := stats3, worker_status := statusOut })
      else
        let stats2 :=
          { stats1 with failed_requests := stats1.failed_requests + 1 }
        match mbody with
        | some body =>
          ((body, code), { st with stats := stats2, worker_status := statusOut })
        | none =>
          let stats3 :=
            { stats2 with failed_requests := stats2.failed_requests + 1 }
          (([("ok", .vbool false), ("error", .vstr env.jsonErrMsg)], 500),
           { st with stats := stats3, worker_status := statusOut })
    | .timeout =>
      let stats2 :=
        { stats1 with failed_requests := stats1.failed_requests + 1 }
      (([("ok", .vbool false),
         ("error", .vstr ("Timeout al procesar en " ++ w.id))], 504),
       { st with stats := stats2, worker_status := statusOut })
    | .failed msg =>
      let stats2 :=
        { stats1 with failed_requests := stats1.failed_requests + 1 }
      (([("ok", .vbool false), ("error", .vstr msg)], 500),
       { st with stats := stats2, worker_status := statusOut })

/-- C4: when the chosen worker replies 200 with a JSON body, `forward_request`
answers 200 with that body augmented with `routed_to` (the chosen worker's id)
and `balancer_time` (the elapsed time), increments `successful_requests` by
one and the chosen worker's `requests_per_worker` entry by one, leaving the
other workers' entries unchanged. -/
theorem forward_request_success (st : BalancerState) (env : ForwardEnv)
    (w : Worker) (body : Dict)
    (hw : get_best_worker st.workers st.worker_status
        st.stats.requests_per_worker = some w)
    (hp : env.post w = .reply 200 (some body)) :
    (forward_request st env).1.2 = 200 ∧
    (forward_request st env).1.1 =
      dictSet (dictSet body "routed_to" (.vstr w.id)) "balancer_time"
        (.vnat env.elapsed) ∧
    dictGet (forward_request st env).1.1 "routed_to" = some (.vstr w.id) ∧
    dictGet (forward_request st env).1.1 "balancer_time" =
      some (.vnat env.elapsed) ∧
    (forward_request st env).2.stats.successful_requests =
      st.stats.successful_requests + 1 ∧
    (forward_request st env).2.stats.requests_per_worker w.id =
      st.stats.requests_per_worker w.id + 1 ∧
    (∀ i, i ≠ w.id →
      (forward_request st env).2.stats.requests_per_worker i =
        st.stats.requests_per_worker i) := by
  simp only [forward_request, hw, hp, reduceIte, dictGet_dictSet_self]
  refine ⟨trivial, trivial, ?_, trivial, trivial, trivial, ?_⟩
  · rw [dictGet_dictSet_ne _ _ _ _ (by decide), dictGet_dictSet_self]
  · intro i hi
    simp [hi]

/-- C5: when the POST to the chosen worker raises a timeout, `forward_request`
answers 504 with a body naming that worker, increments `failed_requests` by
one, and leaves `successful_requests` and every `requests_per_worker` entry
unchanged. -/
theorem forward_request_timeout (st : BalancerState) (env : ForwardEnv)
    (w : Worker)
    (hw : get_best_worker st.workers st.worker_status
        st.stats.requests_per_worker = some w)
    (hp : env.post w = .timeout) :
    (forward_request st env).1.2 = 504 ∧
    (forward_request st env).1.1 =
      [("ok", .vbool false),
       ("error", .vstr ("Timeout al procesar en " ++ w.id))] ∧
    (forward_request st env).2.stats.failed_requests =
      st.stats.failed_requests + 1 ∧
    (forward_request st env).2.stats.successful_requests =
      st.stats.successful_requests ∧
    (∀ i, (forward_request st env).2.stats.requests_per_worker i =
      st.stats.requests_per_worker i) := by
  simp [forward_request, hw, hp]

/-- C6: when no worker is healthy, `forward_request` answers 503 with the
no-capacity body, increments `total_requests` and `failed_requests` by one
each, and leaves `successful_requests`, every `requests_per_worker` entry and
the whole worker-status table unchanged (no worker is marked busy and no
re-probe happens on this path). -/
theorem forward_request_no_capacity (st : BalancerState) (env : ForwardEnv)
    (h : ∀ w ∈ st.workers, (st.worker_status w.id).healthy = false) :
    (forward_request st env).1.2 = 503 ∧
    (forward_request st env).1.1 =
      [("ok", .vbool false), ("error", .vstr "No hay workers disponibles")] ∧
    (forward_request st env).2.stats.total_requests =
      st.stats.total_requests + 1 ∧
    (forward_request st env).2.stats.failed_requests =
      st.stats.failed_requests + 1 ∧
    (forward_request st env).2.stats.successful_requests =
      st.stats.successful_requests ∧
    (∀ i, (forward_request st env).2.stats.requests_per_worker i =
      st.stats.requests_per_worker i) ∧
    (forward_request st env).2.worker_status = st.worker_status := by
  have hw := get_best_worker_none st.workers st.worker_status
    st.stats.requests_per_worker h
  simp [forward_request, hw]

/-- The second worker of the example pool, the one the scheduler picks from
`stIdle`. -/
def workerB : Worker := ⟨"http://localhost:5557", "worker-2"⟩

/-- Balancer state used to instantiate the forwarder theorems: the example
pool with its example status table and counters. -/
def stIdle : BalancerState := ⟨poolABC, statusABC, ⟨0, 0, 0, rpwABC⟩⟩

/-- A worker reply body as produced by worker.py on success. -/
def bodyOk : Dict :=
  [("ok", .vbool true), ("latex", .vstr "x^2"),
   ("plain_math", .vstr "x^2"), ("demo_mode", .vbool false),
   ("worker_id", .vstr "worker-2")]

/-- Environment in which the chosen worker replies 200 with `bodyOk`. -/
def envOk : ForwardEnv :=
  ⟨fun _ => .reply 200 (some bodyOk), 3, "Expecting value", fun _ => none, 9⟩

theorem forward_request_success_witness :
    (forward_request stIdle envOk).1.2 = 200 ∧
    dictGet (forward_request stIdle envOk).1.1 "routed_to" =
      some (.vstr workerB.id) ∧
    (forward_request stIdle envOk).2.stats.successful_requests =
      stIdle.stats.successful_requests + 1 ∧
    (forward_request stIdle envOk).2.stats.requests_per_worker workerB.id =
      stIdle.stats.requests_per_worker workerB.id + 1 :=
  have h := forward_request_success stIdle envOk workerB bodyOk
    (by decide) (by decide)
  ⟨h.1, h.2.2.1, h.2.2.2.2.1, h.2.2.2.2.2.1⟩

/-- Environment in which every POST raises `requests.Timeout`. -/
def envTimeout : ForwardEnv :=
  ⟨fun _ => .timeout, 120, "Expecting value", fun _ => none, 9⟩

theorem forward_request_timeout_witness :
    (forward_request stIdle envTimeout).1.2 = 504 ∧
    (forward_request stIdle envTimeout).1.1 =
      [("ok", .vbool false),
       ("error", .vstr ("Timeout al procesar en " ++ workerB.id))] ∧
    (forward_request stIdle envTimeout).2.stats.failed_requests =
      stIdle.stats.failed_requests + 1 ∧
    (forward_request stIdle envTimeout).2.stats.successful_requests =
      stIdle.stats.successful_requests :=
  have h := forward_request_timeout stIdle envTimeout workerB
    (by decide) (by decide)
  ⟨h.1, h.2.1, h.2.2.1, h.2.2.2.1⟩

/-- Status table in which every worker is unhealthy. -/
def statusDown : String → WStatus := fun _ => ⟨false, false, 0, 0⟩

/-- Balancer state with every worker unhealthy. -/
def stDown : BalancerState := ⟨poolABC, statusDown, ⟨0, 0, 0, rpwABC⟩⟩

/-- Classification of one `forward_request` run by whether a worker reply body
failed to parse as JSON: `good` when no body parse was attempted or it
succeeded (no worker available, reply with a JSON body, timeout, other
transport error), `bad200` for a 200 reply whose body is not JSON, `badOther`
for a non-200 reply whose body is not JSON. -/
inductive ReplyParse where
  | good
  | bad200
  | badOther
deriving DecidableEq

/-- Which of the three `ReplyParse` classes a run of `forward_request` in the
given state and environment falls into. -/
def replyParse (st : BalancerState) (env : ForwardEnv) : ReplyParse :=
  match get_best_worker st.workers st.worker_status
      st.stats.requests_per_worker with
  | none => .good
  | some w =>
    match env.post w with
    | .reply code none => if code = 200 then .bad200 else .badOther
    | _ => .good

/-- C9 (amended): every `forward_request` call increments `total_requests` by
exactly one; when the reply body parses (or there is no reply body to parse)
exactly one of `successful_requests` and `failed_requests` increments by one;
but on a 200 reply whose body is not valid JSON both increment by one, and on
a non-200 reply whose body is not valid JSON `failed_requests` increments by
two. -/
theorem forward_request_counters (st : BalancerState) (env : ForwardEnv) :
    (forward_request st env).2.stats.total_requests =
      st.stats.total_requests + 1 ∧
    (replyParse st env = .good →
      ((forward_request st env).2.stats.successful_requests =
          st.stats.successful_requests + 1 ∧
        (forward_request st env).2.stats.failed_requests =
          st.stats.failed_requests) ∨
      ((forward_request st env).2.stats.failed_requests =
          st.stats.failed_requests + 1 ∧
        (forward_request st env).2.stats.successful_requests =
          st.stats.successful_requests)) ∧
    (replyParse st env = .bad200 →
      (forward_request st env).2.stats.successful_requests =
        st.stats.successful_requests + 1 ∧
      (forward_request st env).2.stats.failed_requests =
        st.stats.failed_requests + 1) ∧
    (replyParse st env = .badOther →
      (forward_request st env).2.stats.failed_requests =
        st.stats.failed_requests + 2 ∧
      (forward_request st env).2.stats.successful_requests =
        st.stats.successful_requests) := by
  cases hga : get_best_worker st.workers st.worker_status
      st.stats.requests_per_worker with
  | none => simp [forward_request, replyParse, hga]
  | some w =>
    cases hpost : env.post w with
    | reply code mbody =>
      by_cases hc : code = 200
      · subst hc
        cases mbody with
        | some body => simp [forward_request, replyParse, hga, hpost]
        | none => simp [forward_request, replyParse, hga, hpost]
      · cases mbody with
        | some body => simp [forward_request, replyParse, hga, hpost, hc]
        | none => simp [forward_request, replyParse, hga, hpost, hc]
    | timeout => simp [forward_request, replyParse, hga, hpost]
    | failed msg => simp [forward_request, replyParse, hga, hpost]

/-- Environment in which the chosen worker replies 404 with a body that is
not valid JSON. -/
def envBad : ForwardEnv :=
  ⟨fun _ => .reply 404 none, 1, "Expecting value", fun _ => none, 9⟩

/-- C9 counterexample: a non-200 reply whose body is not valid JSON makes
`forward_request` increment `failed_requests` twice (once in the non-200
branch and once in the generic exception handler entered when `resp.json()`
raises), so it is not the case that exactly one of `successful_requests` and
`failed_requests` increases by exactly one. -/
theorem forward_request_double_failure :
    (forward_request stIdle envBad).2.stats.failed_requests = 2 ∧
    (forward_request stIdle envBad).2.stats.successful_requests = 0 ∧
    stIdle.stats.failed_requests = 0 ∧
    stIdle.stats.successful_requests = 0 ∧
    ¬ (((forward_request stIdle envBad).2.stats.successful_requests =
          stIdle.stats.successful_requests + 1 ∧
        (forward_request stIdle envBad).2.stats.failed_requests =
          stIdle.stats.failed_requests) ∨
      ((forward_request stIdle envBad).2.stats.failed_requests =
          stIdle.stats.failed_requests + 1 ∧
        (forward_request stIdle envBad).2.stats.successful_requests =
          stIdle.stats.successful_requests)) := by
  decide

theorem forward_request_counters_witness :
    (forward_request stIdle envTimeout).2.stats.total_requests =
      stIdle.stats.total_requests + 1 ∧
    (((forward_request stIdle envTimeout).2.stats.successful_requests =
          stIdle.stats.successful_requests + 1 ∧
        (forward_request stIdle envTimeout).2.stats.failed_requests =
          stIdle.stats.failed_requests) ∨
      ((forward_request stIdle envTimeout).2.stats.failed_requests =
          stIdle.stats.failed_requests + 1 ∧
        (forward_request stIdle envTimeout).2.stats.successful_requests =
          stIdle.stats.successful_requests)) :=
  have h := forward_request_counters stIdle envTimeout
  ⟨h.1, h.2.1 (by decide)⟩

theorem forward_request_no_capacity_witness :
    (forward_request stDown envOk).1.2 = 503 ∧
    (forward_request stDown envOk).2.stats.total_requests =
      stDown.stats.total_requests + 1 ∧
    (forward_request stDown envOk).2.stats.failed_requests =
      stDown.stats.failed_requests + 1 ∧
    (forward_request stDown envOk).2.worker_status = stDown.worker_status :=
  have h := forward_request_no_capacity stDown envOk (fun _ _ => rfl)
  ⟨h.1, h.2.2.1, h.2.2.2.1, h.2.2.2.2.2.2⟩

/-! The balancer's own `/predict` route handler (balancer.py lines 200-217). -/

/-- An inbound HTTP request as Flask presents it to the route handler:
`is_json` is `request.is_json` (true when the Content-Type indicates JSON,
whatever the body), and `parsed` is the outcome of evaluating `request.json`
under a JSON Content-Type — `some` the parsed object, or `none` when the body
does not parse and the property raises `BadRequest`. -/
structure HttpRequest where
  is_json : Bool
  parsed : Option Dict

/-- The balancer route `predict`: requires a JSON Content-Type (else 400
"JSON required"), requires an `image` key (else 400), and otherwise delegates
to `forward_request`.  `errMsg` is the `str(e)` of the `BadRequest` raised by
`request.json` on an unparseable body; that exception is caught by the
handler's own `except` clause, which answers 500. -/
def route_predict (st : BalancerState) (req : HttpRequest) (env : ForwardEnv)
    (errMsg : String) : (Dict × Nat) × BalancerState :=
  if req.is_json then
    match req.parsed with
    | none => (([("ok", .vbool false), ("error", .vstr errMsg)], 500), st)
    | some data =>
      if dictHasKey data "image" then forward_request st env
      else
        (([("ok", .vbool false),
           ("error", .vstr "No \x27image\x27 in request")], 400), st)
  else (([("ok", .vbool false), ("error", .vstr "JSON required")], 400), st)

/-- C10 (amended): a request whose Content-Type is not JSON gets 400
"JSON required"; a JSON request parsing to an object without an `image` key
gets 400; a request with JSON Content-Type whose body does not parse gets 500
(not 400) with `ok = false`; on all three paths `forward_request` is not
invoked and the balancer state — every counter and every worker's recorded
state — is returned unchanged. -/
theorem route_predict_reject (st : BalancerState) (req : HttpRequest)
    (env : ForwardEnv) (errMsg : String) :
    (req.is_json = false →
      route_predict st req env errMsg =
        (([("ok", .vbool false), ("error", .vstr "JSON required")], 400),
         st)) ∧
    (∀ d, req.is_json = true → req.parsed = some d →
      dictHasKey d "image" = false →
      route_predict st req env errMsg =
        (([("ok", .vbool false),
           ("error", .vstr "No \x27image\x27 in request")], 400), st)) ∧
    (req.is_json = true → req.parsed = none →
      (route_predict st req env errMsg).1.2 = 500 ∧
      dictGet (route_predict st req env errMsg).1.1 "ok" =
        some (.vbool false) ∧
      (route_predict st req env errMsg).2 = st) := by
  refine ⟨?_, ?_, ?_⟩
  · intro h
    simp [route_predict, h]
  · intro d h₁ h₂ h₃
    simp [route_predict, h₁, h₂, h₃]
  · intro h₁ h₂
    simp [route_predict, h₁, h₂, dictGet]

/-- C10 counterexample: a request whose Content-Type announces JSON but whose
body is not valid JSON is answered 500, not 400: `request.is_json` is true (it
only inspects the mimetype), so the handler evaluates `request.json`, which
raises, and the handler's generic `except` clause answers 500. -/
theorem route_predict_malformed_json_not_400 :
    (route_predict stIdle ⟨true, none⟩ envOk "Expecting value").1.2 = 500 ∧
    ¬ (route_predict stIdle ⟨true, none⟩ envOk "Expecting value").1.2 = 400 ∧
    (route_predict stIdle ⟨true, none⟩ envOk "Expecting value").2.stats.total_requests
      = stIdle.stats.total_requests := by
  decide

theorem route_predict_reject_witness :
    route_predict stIdle ⟨false, none⟩ envOk "Expecting value" =
      (([("ok", .vbool false), ("error", .vstr "JSON required")], 400),
       stIdle) :=
  (route_predict_reject stIdle ⟨false, none⟩ envOk "Expecting value").1 rfl

/-! The worker's own `/predict` endpoint (worker.py lines 460-527). -/

/-- The fields of worker.py's module-level `worker_state` dict that the
predict endpoint reads or writes. -/
structure WorkerProcState where
  busy : Bool
  current_request : Option String
  requests_processed : Nat
  last_request_time : Option Nat
deriving DecidableEq

/-- Environment of one worker predict call.  `ready` is
`PADDLE_AVAILABLE and pipeline is not None`; `reqData` is the outcome of
`request.get_json()` (`none` when it raises on an unparseable body, with
message `parseErrMsg`); `decodeResult` is the outcome of `_decode_image`;
`ocrText` and `ocrDemo` are the fields of the `run_ocr_formula` result (that
function catches its own exceptions and always returns a dict); `plainMath`
stands for the pure text filter `latex_to_plain_math`, which the spec scopes
out of the core as an opaque single-string transform. -/
structure WorkerEnv where
  ready : Bool
  reqData : Option Dict
  parseErrMsg : String
  decodeResult : Except String Unit
  ocrText : String
  ocrDemo : Bool
  plainMath : String → String
  uuid : String
  now : Nat
  workerId : String

/-- The `finally` block of the worker predict endpoint: release the
single-flight gate. -/
def clearBusy (w : WorkerProcState) : WorkerProcState :=
  { w with busy := false, current_request := none }

/-- The worker route `predict` (worker.py lines 460-527).  The final `Bool`
component records whether `run_ocr_formula` was invoked on this path.  The
two early 503 rejections (pipeline unavailable; worker busy) happen before
the `try`, so they bypass the `finally` block and leave the state untouched;
every path inside the `try` runs `clearBusy` on the way out. -/
def worker_predict (ws : WorkerProcState) (env : WorkerEnv) :
    (Dict × Nat) × WorkerProcState × Bool :=
  if env.ready = false then
    (([("ok", .vbool false), ("error", .vstr "OCR no disponible")], 503),
     ws, false)
  else if ws.busy then
    (([("ok", .vbool false), ("error", .vstr "Worker ocupado")], 503),
     ws, false)
  else
    let ws1 := { ws with busy := true, current_request := some env.uuid }
    match env.reqData with
    | none =>
      (([("ok", .vbool false), ("error", .vstr env.parseErrMsg)], 500),
       clearBusy ws1, false)
    | some data =>
      if data.isEmpty || !(dictHasKey data "image") then
        (([("ok", .vbool false),
           ("error", .vstr "No se proporcionó imagen")], 400),
         clearBusy ws1, false)
      else
        match env.decodeResult with
        | .error e =>
          (([("ok", .vbool false),
             ("error", .vstr ("Error al decodificar imagen: " ++ e))], 400),
           clearBusy ws1, false)
        | .ok _ =>
          let ws2 := { ws1 with
            requests_processed := ws1.requests_processed + 1,
            last_request_time := some env.now }
          (([("ok", .vbool true), ("latex", .vstr env.ocrText),
             ("plain_math", .vstr (env.plainMath env.ocrText)),
             ("demo_mode", .vbool env.ocrDemo),
             ("worker_id", .vstr env.workerId)], 200),
           clearBusy ws2, true)

/-- C7 (amended): a predict request reaching a ready worker whose state is
busy is rejected before any recognition runs, with status 503 and body
`ok = false`, `error = "Worker ocupado"` (the code's literal message; not the
string "busy"), and the worker state is left untouched. -/
theorem worker_predict_busy (ws : WorkerProcState) (env : WorkerEnv)
    (hr : env.ready = true) (hb : ws.busy = true) :
    worker_predict ws env =
      (([("ok", .vbool false), ("error", .vstr "Worker ocupado")], 503),
       ws, false) := by
  simp [worker_predict, hr, hb]

/-- A busy worker state. -/
def wsBusy : WorkerProcState := ⟨true, some "ab12cd34", 4, some 100⟩

/-- Environment of a predict call hitting a ready worker. -/
def envReady : WorkerEnv :=
  ⟨true, some [("image", .vstr "aGVsbG8=")], "Expecting value", .ok (),
   "x^2", false, fun s => s, "ef56ab78", 101, "worker-1"⟩

theorem worker_predict_busy_witness :
    worker_predict wsBusy envReady =
      (([("ok", .vbool false), ("error", .vstr "Worker ocupado")], 503),
       wsBusy, false) :=
  worker_predict_busy wsBusy envReady rfl rfl

/-- C7 counterexample: the rejection body's `error` field is the literal
string "Worker ocupado", not the string "busy" stated by the claim. -/
theorem worker_predict_busy_message :
    dictGet (worker_predict wsBusy envReady).1.1 "error" =
      some (.vstr "Worker ocupado") ∧
    ¬ dictGet (worker_predict wsBusy envReady).1.1 "error" =
      some (.vstr "busy") := by
  decide

/-! C8: serialization of the counter updates.  `LoadBalancer.__init__`
creates `self.queue_lock = Lock()`, but no method of the class ever acquires
it: every `self.stats[...] += 1` in `forward_request` is an unprotected
read-increment-write of shared state.  The model below plays two concurrent
`forward_request` invocations each performing the `total_requests += 1`
statement at the granularity CPython provides: the load of the current value
and the store of the incremented value are separate interpreter steps, and
with no lock held the interpreter may switch threads between them. -/

/-- Shared counter plus, for each of the two threads, a program counter
(0 = about to load, 1 = about to store, 2 = done) and the loaded value. -/
structure IncState where
  counter : Nat
  pc0 : Nat
  tmp0 : Nat
  pc1 : Nat
  tmp1 : Nat
deriving DecidableEq

/-- One atomic step of thread `false` or thread `true` executing the
unprotected `counter += 1` as load-then-store. -/
def incStep (t : Bool) (s : IncState) : IncState :=
  if t = false then
    if s.pc0 = 0 then { s with tmp0 := s.counter, pc0 := 1 }
    else if s.pc0 = 1 then { s with counter := s.tmp0 + 1, pc0 := 2 }
    else s
  else
    if s.pc1 = 0 then { s with tmp1 := s.counter, pc1 := 1 }
    else if s.pc1 = 1 then { s with counter := s.tmp1 + 1, pc1 := 2 }
    else s

/-- Run a schedule: the interleaving of the two threads chosen by the
interpreter. -/
def incRun (sched : List Bool) (s : IncState) : IncState :=
  sched.foldl (fun a t => incStep t a) s

/-- Both threads at their load instruction, counter 0. -/
def incInit : IncState := ⟨0, 0, 0, 0, 0⟩

/-- C8: with no lock around `total_requests += 1`, the interleaving
load/load/store/store of two concurrent `forward_request` invocations
completes both increments yet leaves the counter at 1 — a lost update — while
the serialized schedule leaves it at 2.  The claim that a shared lock
serializes the counter mutations fails on the code (`queue_lock` exists but
is never acquired); the spec's demand is the evident intent, so this is a
defect of the code. -/
theorem forward_counter_lost_update :
    (incRun [false, true, false, true] incInit).pc0 = 2 ∧
    (incRun [false, true, false, true] incInit).pc1 = 2 ∧
    (incRun [false, true, false, true] incInit).counter = 1 ∧
    (incRun [false, false, true, true] incInit).counter = 2 := by
  decide

end OcrCluster
